import Mathlib

/-
Verification of the `RAGEvaluator` class in
`Streamlit_App/evaluation_module.py`.

Modelling conventions (shallow embedding):
* Python floats are modelled as exact rationals (`ℚ`).
* Every external pretrained model or third-party scoring routine
  (sacrebleu's `corpus_bleu`, the ROUGE scorer, `bert_score.score`,
  the GPT-2 model forward pass and tokenizer, the zero-shot bias
  pipeline, nltk's `word_tokenize` / `meteor_score` / `sentence_chrf`,
  textstat's readability formulas, the sentence-transformer encoder and
  the toxicity pipeline, together with the numeric primitives
  `math.sqrt`-style square root inside cosine normalisation and
  `torch.exp`) is an opaque oracle: a field of the `RAGEvaluator`
  structure.  The class's own glue code is translated literally.
* Python code paths that raise (`ZeroDivisionError` from averaging over
  an empty score list, `torch.stack` on an empty list, `list.index` on a
  missing element) are modelled with `Except String`.
-/

set_option autoImplicit false

namespace RagEval

/-- Python `str.split()` with no argument: split on runs of whitespace,
dropping empty pieces.  `acc` holds the reversed characters of the token
currently being read. -/
def pySplitAux : List Char → List Char → List String
  | [], acc => if acc.isEmpty then [] else [String.mk acc.reverse]
  | c :: cs, acc =>
    if c.isWhitespace then
      if acc.isEmpty then pySplitAux cs []
      else String.mk acc.reverse :: pySplitAux cs []
    else pySplitAux cs (c :: acc)

/-- Python `text.split()`. -/
def pySplit (s : String) : List String :=
  pySplitAux s.data []

/-- Does `hay` start with `needle`? (helper for substring containment). -/
def startsWith : List Char → List Char → Bool
  | [], _ => true
  | _ :: _, [] => false
  | a :: as, b :: bs => a == b && startsWith as bs

/-- Does some suffix of `hay` start with `needle`? -/
def hasSub (needle : List Char) : List Char → Bool
  | [] => startsWith needle []
  | c :: cs => startsWith needle (c :: cs) || hasSub needle cs

/-- Python's substring test `needle in hay` on strings. -/
def strContains (hay needle : String) : Bool :=
  hasSub needle.data hay.data

/-- `torch.Tensor.mean().item()` on a 1-dimensional tensor, as a rational. -/
def meanQ (l : List ℚ) : ℚ :=
  l.sum / (l.length : ℚ)

/-- Dot product of two embedding vectors (trailing entries of the longer
vector are ignored, as in an elementwise product of equal-length vectors). -/
def dotQ : List ℚ → List ℚ → ℚ
  | [], _ => 0
  | _ :: _, [] => 0
  | a :: as, b :: bs => a * b + dotQ as bs

/-- `sklearn.metrics.pairwise.cosine_similarity` on two single-row inputs:
the dot product divided by the product of the Euclidean norms.  The square
root used by the library is the oracle `sqrtFn`. -/
def cosineSimQ (sqrtFn : ℚ → ℚ) (u v : List ℚ) : ℚ :=
  dotQ u v / (sqrtFn (dotQ u u) * sqrtFn (dotQ v v))

/-- A value in the report returned by `evaluate_all`: a Python float or a
Python bool. -/
inductive MetricValue where
  | num (x : ℚ)
  | boolean (b : Bool)
  deriving DecidableEq

/-- Is this report value a boolean? -/
def MetricValue.isBoolVal : MetricValue → Bool
  | .num _ => false
  | .boolean _ => true

/-- The dict returned by `evaluate_all`, as an ordered key/value list. -/
abbrev Report := List (String × MetricValue)

/-- The capability handles and external library routines the class uses.
Fields starting with `gpt2` model the causal LM + tokenizer handle; the
others model the remaining pipelines, the module-level library imports and
the numeric primitives. -/
structure RAGEvaluator where
  corpusBleu : List String → List (List String) → ℚ
  rouge1F : String → String → ℚ
  bertScores : List String → List String → List ℚ × List ℚ × List ℚ
  gpt2Tokenize : String → List Int
  gpt2NPositions : Nat
  gpt2Loss : List Int → List Int → ℚ
  biasPipeline : String → List String → List String × List ℚ
  wordTok : String → List String
  meteorS : List (List String) → List String → ℚ
  chrfS : String → String → ℚ
  fleschEase : String → ℚ
  fleschGrade : String → ℚ
  sentenceEncode : String → List ℚ
  sqrtFn : ℚ → ℚ
  expFn : ℚ → ℚ
  toxicityPipeline : String → String × ℚ

/-- `evaluate_bleu_rouge`: corpus BLEU plus the mean ROUGE-1 F-measure over
`zip(references, candidates)`.  The division raises `ZeroDivisionError`
when the zipped list is empty. -/
def RAGEvaluator.evaluate_bleu_rouge (self : RAGEvaluator)
    (candidates references : List String) : Except String (ℚ × ℚ) :=
  let bleu_score := self.corpusBleu candidates [references]
  let rouge_scores := (references.zip candidates).map fun p => self.rouge1F p.1 p.2
  if rouge_scores.length = 0 then
    .error "ZeroDivisionError: division by zero"
  else
    .ok (bleu_score, rouge_scores.sum / (rouge_scores.length : ℚ))

/-- `evaluate_bert_score`: mean precision, recall and F1 from `bert_score.score`. -/
def RAGEvaluator.evaluate_bert_score (self : RAGEvaluator)
    (candidates references : List String) : ℚ × ℚ × ℚ :=
  let prf := self.bertScores candidates references
  (meanQ prf.1, meanQ prf.2.1, meanQ prf.2.2)

/-- `evaluate_perplexity`: sliding-window negative log-likelihood.  The
window loop is `range(0, len(ids), 512)`; each step slices
`ids[begin_loc:end_loc]`, masks all but the last `trg_len` targets with
`-100`, multiplies the model loss by `trg_len` and collects it; finally
`exp(sum(lls) / end_loc)`.  `torch.stack` on an empty list raises. -/
def RAGEvaluator.evaluate_perplexity (self : RAGEvaluator)
    (text : String) : Except String ℚ :=
  let input_ids := self.gpt2Tokenize text
  let max_length := self.gpt2NPositions
  let stride := 512
  let n := input_ids.length
  let steps := (List.range' 0 ((n + stride - 1) / stride) stride).map fun i =>
    let begin_loc := max (i + stride - max_length) 0
    let end_loc := min (i + stride) n
    let trg_len := end_loc - i
    let ids := (input_ids.drop begin_loc).take (end_loc - begin_loc)
    let cut := if trg_len = 0 then 0 else ids.length - trg_len
    let target_ids := (ids.take cut).map (fun _ => (-100 : Int)) ++ ids.drop cut
    (self.gpt2Loss ids target_ids * (trg_len : ℚ), end_loc)
  match steps with
  | [] => .error "RuntimeError: stack expects a non-empty TensorList"
  | _ :: _ =>
    .ok (self.expFn ((steps.map Prod.fst).sum / (((steps.getLastD (0, 0)).2 : ℚ))))

/-- The list comprehension `[tok for text in texts for tok in text.split()]`. -/
def combinedTokens (texts : List String) : List String :=
  (texts.map pySplit).flatten

/-- `evaluate_diversity`: number of distinct bigrams over the number of
tokens in all texts combined; `0` for an empty token list. -/
def RAGEvaluator.evaluate_diversity (_self : RAGEvaluator)
    (texts : List String) : ℚ :=
  let all_tokens := combinedTokens texts
  let unique_bigrams := (all_tokens.zip all_tokens.tail).toFinset
  if all_tokens = [] then 0
  else (unique_bigrams.card : ℚ) / (all_tokens.length : ℚ)

/-- `evaluate_racial_bias`: zero-shot score at index
`labels.index("hate speech")`; `list.index` raises when the element is
missing, and indexing out of range raises. -/
def RAGEvaluator.evaluate_racial_bias (self : RAGEvaluator)
    (text : String) : Except String ℚ :=
  let results := self.biasPipeline text ["hate speech", "not hate speech"]
  match results.1.findIdx? (fun lab => lab == "hate speech") with
  | none => .error "ValueError: not in list"
  | some i =>
    match results.2[i]? with
    | none => .error "IndexError: list index out of range"
    | some s => .ok s

/-- `evaluate_meteor`: mean METEOR over `zip(references, candidates)` after
word-tokenising both sides; the division raises on an empty list.  (The
`nltk.download` side effect is outside the value-level model.) -/
def RAGEvaluator.evaluate_meteor (self : RAGEvaluator)
    (candidates references : List String) : Except String ℚ :=
  let meteor_scores := (references.zip candidates).map fun p =>
    self.meteorS [self.wordTok p.1] (self.wordTok p.2)
  if meteor_scores.length = 0 then
    .error "ZeroDivisionError: division by zero"
  else
    .ok (meteor_scores.sum / (meteor_scores.length : ℚ))

/-- `evaluate_chrf`: mean `sentence_chrf(ref, cand)` over
`zip(references, candidates)`; the division raises on an empty list. -/
def RAGEvaluator.evaluate_chrf (self : RAGEvaluator)
    (candidates references : List String) : Except String ℚ :=
  let chrf_scores := (references.zip candidates).map fun p => self.chrfS p.1 p.2
  if chrf_scores.length = 0 then
    .error "ZeroDivisionError: division by zero"
  else
    .ok (chrf_scores.sum / (chrf_scores.length : ℚ))

/-- `evaluate_readability`: Flesch Reading Ease and Flesch-Kincaid Grade. -/
def RAGEvaluator.evaluate_readability (self : RAGEvaluator)
    (text : String) : ℚ × ℚ :=
  (self.fleschEase text, self.fleschGrade text)

/-- `evaluate_semantic_similarity`: cosine similarity of the two sentence
embeddings. -/
def RAGEvaluator.evaluate_semantic_similarity (self : RAGEvaluator)
    (candidate reference : String) : ℚ :=
  cosineSimQ self.sqrtFn (self.sentenceEncode candidate) (self.sentenceEncode reference)

/-- `evaluate_factual_consistency`: thresholded semantic similarity
(the Python default threshold is 0.8). -/
def RAGEvaluator.evaluate_factual_consistency (self : RAGEvaluator)
    (candidate reference : String) (threshold : ℚ) : Bool :=
  decide (self.evaluate_semantic_similarity candidate reference ≥ threshold)

/-- `evaluate_question_relevance`: thresholded semantic similarity
(the Python default threshold is 0.7). -/
def RAGEvaluator.evaluate_question_relevance (self : RAGEvaluator)
    (question response : String) (threshold : ℚ) : Bool :=
  decide (self.evaluate_semantic_similarity question response ≥ threshold)

/-- `evaluate_context_relevance`: thresholded semantic similarity
(the Python default threshold is 0.7). -/
def RAGEvaluator.evaluate_context_relevance (self : RAGEvaluator)
    (context response : String) (threshold : ℚ) : Bool :=
  decide (self.evaluate_semantic_similarity context response ≥ threshold)

/-- `evaluate_answer_relevance`: thresholded semantic similarity
(the Python default threshold is 0.7). -/
def RAGEvaluator.evaluate_answer_relevance (self : RAGEvaluator)
    (question response : String) (threshold : ℚ) : Bool :=
  decide (self.evaluate_semantic_similarity question response ≥ threshold)

/-- `evaluate_toxicity`: the top classifier prediction's score if its label
contains the substring `"toxic"`, else `0.0`. -/
def RAGEvaluator.evaluate_toxicity (self : RAGEvaluator) (text : String) : ℚ :=
  let result := self.toxicityPipeline text
  if strContains result.1 "toxic" then result.2 else 0

/-- Default `threshold=0.8` of `evaluate_factual_consistency`. -/
def factualConsistencyThreshold : ℚ := 4 / 5

/-- Default `threshold=0.7` of the three relevance methods. -/
def relevanceThreshold : ℚ := 7 / 10

/-- `evaluate_all`: wraps response/reference into singleton lists, runs every
metric in source order and builds the 18-key report.  Any raising metric
call aborts the aggregation (`Except` propagation); note that both
`context_relevance` and `answer_relevance` are computed with
`evaluate_question_relevance`, exactly as in the source. -/
def RAGEvaluator.evaluate_all (self : RAGEvaluator)
    (question response reference : String) : Except String Report :=
  let candidates := [response]
  let references := [reference]
  match self.evaluate_bleu_rouge candidates references with
  | .error e => .error e
  | .ok (bleu, rouge1) =>
    let bert := self.evaluate_bert_score candidates references
    match self.evaluate_perplexity response with
    | .error e => .error e
    | .ok perplexity =>
      let diversity := self.evaluate_diversity candidates
      match self.evaluate_racial_bias response with
      | .error e => .error e
      | .ok racial_bias =>
        match self.evaluate_meteor candidates references with
        | .error e => .error e
        | .ok meteor =>
          match self.evaluate_chrf candidates references with
          | .error e => .error e
          | .ok chrf =>
            let readability := self.evaluate_readability response
            let semantic_similarity := self.evaluate_semantic_similarity response reference
            let factual_consistency := self.evaluate_factual_consistency response reference factualConsistencyThreshold
            let question_relevance := self.evaluate_question_relevance question response relevanceThreshold
            let context_relevance := self.evaluate_question_relevance reference response relevanceThreshold
            let answer_relevance := self.evaluate_question_relevance question response relevanceThreshold
            let toxicity := self.evaluate_toxicity response
            .ok [("BLEU", .num bleu),
                 ("ROUGE-1", .num rouge1),
                 ("BERT P", .num bert.1),
                 ("BERT R", .num bert.2.1),
                 ("BERT F1", .num bert.2.2),
                 ("Perplexity", .num perplexity),
                 ("Diversity", .num diversity),
                 ("Racial Bias", .num racial_bias),
                 ("METEOR", .num meteor),
                 ("CHRF", .num chrf),
                 ("Flesch Reading Ease", .num readability.1),
                 ("Flesch-Kincaid Grade", .num readability.2),
                 ("Semantic Similarity", .num semantic_similarity),
                 ("Factual Consistency", .boolean factual_consistency),
                 ("Question Relevance", .boolean question_relevance),
                 ("Context Relevance", .boolean context_relevance),
                 ("Answer Relevance", .boolean answer_relevance),
                 ("Toxicity", .num toxicity)]

/-- The 18 metric names of the report, in source order. -/
def reportKeys : List String :=
  ["BLEU", "ROUGE-1", "BERT P", "BERT R", "BERT F1", "Perplexity",
   "Diversity", "Racial Bias", "METEOR", "CHRF", "Flesch Reading Ease",
   "Flesch-Kincaid Grade", "Semantic Similarity", "Factual Consistency",
   "Question Relevance", "Context Relevance", "Answer Relevance", "Toxicity"]

/-- Which of the 18 report values are booleans: exactly Factual Consistency
and the three relevance keys. -/
def reportBoolMask : List Bool :=
  [false, false, false, false, false, false, false, false, false, false,
   false, false, false, true, true, true, true, false]

/-- The capability-loading events of `__init__` / `load_gpt2_model`.  The
five capabilities are the GPT-2 model, its tokenizer, the zero-shot bias
classifier, the sentence-embedding encoder and the toxicity classifier. -/
inductive Capability where
  | gpt2Model
  | gpt2Tokenizer
  | biasClassifier
  | sentenceEncoder
  | toxicityClassifier
  deriving DecidableEq

/-- The loads performed by one call of `load_gpt2_model`. -/
def load_gpt2_model_events : List Capability :=
  [.gpt2Model, .gpt2Tokenizer]

/-- The loads performed by `__init__`, line by line: `load_gpt2_model()`,
the bias pipeline, `load_gpt2_model()` again, the sentence transformer,
the toxicity pipeline. -/
def initLoadEvents : List Capability :=
  load_gpt2_model_events ++ [.biasClassifier] ++ load_gpt2_model_events
    ++ [.sentenceEncoder, .toxicityClassifier]

/-- A concrete evaluator whose oracles are trivial total functions, used to
instantiate universally quantified theorems at a concrete input. -/
def sampleEvaluator : RAGEvaluator where
  corpusBleu := fun _ _ => 0
  rouge1F := fun _ _ => 0
  bertScores := fun _ _ => ([0], [0], [0])
  gpt2Tokenize := fun _ => [0]
  gpt2NPositions := 1024
  gpt2Loss := fun _ _ => 0
  biasPipeline := fun _ labels => (labels, [1, 0])
  wordTok := fun s => [s]
  meteorS := fun _ _ => 0
  chrfS := fun _ _ => 0
  fleschEase := fun _ => 0
  fleschGrade := fun _ => 0
  sentenceEncode := fun _ => [1]
  sqrtFn := fun x => x
  expFn := fun x => x
  toxicityPipeline := fun _ => ("toxic", 1 / 2)

/-- Did this call return normally (`ok`) rather than raising (`error`)? -/
def isOkE {α : Type} : Except String α → Bool
  | .ok _ => true
  | .error _ => false

/-- The report computed by `sampleEvaluator.evaluate_all "q" "r" "ref"`. -/
def sampleReport : Report :=
  [("BLEU", .num 0), ("ROUGE-1", .num 0), ("BERT P", .num 0), ("BERT R", .num 0),
   ("BERT F1", .num 0), ("Perplexity", .num 0), ("Diversity", .num 0),
   ("Racial Bias", .num 1), ("METEOR", .num 0), ("CHRF", .num 0),
   ("Flesch Reading Ease", .num 0), ("Flesch-Kincaid Grade", .num 0),
   ("Semantic Similarity", .num 1), ("Factual Consistency", .boolean true),
   ("Question Relevance", .boolean true), ("Context Relevance", .boolean true),
   ("Answer Relevance", .boolean true), ("Toxicity", .num (1 / 2))]

/-- A concrete evaluator whose GPT-2 tokenizer returns no tokens, so that
`evaluate_perplexity` raises. -/
def emptyTokenEvaluator : RAGEvaluator where
  corpusBleu := fun _ _ => 0
  rouge1F := fun _ _ => 0
  bertScores := fun _ _ => ([0], [0], [0])
  gpt2Tokenize := fun _ => []
  gpt2NPositions := 1024
  gpt2Loss := fun _ _ => 0
  biasPipeline := fun _ labels => (labels, [1, 0])
  wordTok := fun s => [s]
  meteorS := fun _ _ => 0
  chrfS := fun _ _ => 0
  fleschEase := fun _ => 0
  fleschGrade := fun _ => 0
  sentenceEncode := fun _ => [1]
  sqrtFn := fun x => x
  expFn := fun x => x
  toxicityPipeline := fun _ => ("toxic", 1 / 2)

/-! ### Theorems -/

/-- The dot product is symmetric in its two arguments. -/
theorem dotQ_comm (u v : List ℚ) : dotQ u v = dotQ v u := by
  induction u generalizing v with
  | nil => cases v <;> simp [dotQ]
  | cons a as ih =>
    cases v with
    | nil => simp [dotQ]
    | cons b bs => simp [dotQ, ih, mul_comm]

/-- C6: for every pair of texts `a`, `b`, `evaluate_semantic_similarity a b`
equals `evaluate_semantic_similarity b a`: the cosine similarity of the two
sentence embeddings is symmetric in its arguments. -/
theorem evaluate_semantic_similarity_comm (E : RAGEvaluator) (a b : String) :
    E.evaluate_semantic_similarity a b = E.evaluate_semantic_similarity b a := by
  unfold RAGEvaluator.evaluate_semantic_similarity cosineSimQ
  rw [dotQ_comm (E.sentenceEncode a) (E.sentenceEncode b), mul_comm]

/-- C3: `evaluate_factual_consistency a b t` is true iff
`evaluate_semantic_similarity a b ≥ t`, and consequently consistency at a
larger threshold implies consistency at a smaller one (the set of pairs
judged consistent is monotonically non-increasing in the threshold). -/
theorem evaluate_factual_consistency_threshold_spec (E : RAGEvaluator)
    (a b : String) (t t' : ℚ) (h : t ≤ t') :
    (E.evaluate_factual_consistency a b t = true ↔
      E.evaluate_semantic_similarity a b ≥ t) ∧
    (E.evaluate_factual_consistency a b t' = true →
      E.evaluate_factual_consistency a b t = true) := by
  unfold RAGEvaluator.evaluate_factual_consistency
  refine ⟨by simp, fun h' => ?_⟩
  simp only [decide_eq_true_eq, ge_iff_le] at h' ⊢
  exact le_trans h h'

/-- Witness for C3 at a concrete evaluator, pair of texts and thresholds. -/
theorem evaluate_factual_consistency_threshold_spec_witness :
    ((1 : ℚ) / 2 ≤ 7 / 10) ∧
    ((sampleEvaluator.evaluate_factual_consistency "a" "b" (1 / 2) = true ↔
       sampleEvaluator.evaluate_semantic_similarity "a" "b" ≥ 1 / 2) ∧
     (sampleEvaluator.evaluate_factual_consistency "a" "b" (7 / 10) = true →
       sampleEvaluator.evaluate_factual_consistency "a" "b" (1 / 2) = true)) :=
  ⟨by norm_num,
   evaluate_factual_consistency_threshold_spec sampleEvaluator "a" "b"
     (1 / 2) (7 / 10) (by norm_num)⟩

/-- C4: `evaluate_toxicity` lies in `[0,1]` whenever the classifier's score
does, it returns `0` whenever the top prediction's label does not contain
the substring `"toxic"`, and otherwise it returns that prediction's score
unchanged. -/
theorem evaluate_toxicity_spec (E : RAGEvaluator) (text : String)
    (h0 : 0 ≤ (E.toxicityPipeline text).2)
    (h1 : (E.toxicityPipeline text).2 ≤ 1) :
    (0 ≤ E.evaluate_toxicity text ∧ E.evaluate_toxicity text ≤ 1) ∧
    (strContains (E.toxicityPipeline text).1 "toxic" = false →
      E.evaluate_toxicity text = 0) ∧
    (strContains (E.toxicityPipeline text).1 "toxic" = true →
      E.evaluate_toxicity text = (E.toxicityPipeline text).2) := by
  unfold RAGEvaluator.evaluate_toxicity
  cases hb : strContains (E.toxicityPipeline text).1 "toxic" with
  | false => simp [hb]
  | true => simp [hb, h0, h1]

/-- Witness for C4 at a concrete evaluator and text whose top prediction is
`("toxic", 1/2)`. -/
theorem evaluate_toxicity_spec_witness :
    (0 ≤ (sampleEvaluator.toxicityPipeline "x").2 ∧
      (sampleEvaluator.toxicityPipeline "x").2 ≤ 1) ∧
    ((0 ≤ sampleEvaluator.evaluate_toxicity "x" ∧
        sampleEvaluator.evaluate_toxicity "x" ≤ 1) ∧
     (strContains (sampleEvaluator.toxicityPipeline "x").1 "toxic" = false →
        sampleEvaluator.evaluate_toxicity "x" = 0) ∧
     (strContains (sampleEvaluator.toxicityPipeline "x").1 "toxic" = true →
        sampleEvaluator.evaluate_toxicity "x" = (sampleEvaluator.toxicityPipeline "x").2)) :=
  ⟨⟨by norm_num [sampleEvaluator], by norm_num [sampleEvaluator]⟩,
   evaluate_toxicity_spec sampleEvaluator "x"
     (by norm_num [sampleEvaluator]) (by norm_num [sampleEvaluator])⟩

/-- C2 counterexample: on `texts = ["a"]` the combined token sequence is the
non-empty `["a"]`, yet `evaluate_diversity` returns `0` (one token produces
no bigram), so "returns 0 exactly when the combined token sequence is empty"
is false. -/
theorem evaluate_diversity_zero_iff_empty_false :
    ¬ (sampleEvaluator.evaluate_diversity ["a"] = 0 ↔ combinedTokens ["a"] = []) := by
  intro h
  have h0 : sampleEvaluator.evaluate_diversity ["a"] = 0 := by
    simp [RAGEvaluator.evaluate_diversity, combinedTokens, pySplit, pySplitAux]
  have := h.mp h0
  simp [combinedTokens, pySplit, pySplitAux] at this

/-- C2 (amended): `evaluate_diversity` always returns a value in `[0,1]`,
and it returns `0` exactly when the combined token sequence has fewer than
two tokens (i.e. when there is no bigram at all). -/
theorem evaluate_diversity_range_and_zero_iff (E : RAGEvaluator)
    (texts : List String) :
    0 ≤ E.evaluate_diversity texts ∧ E.evaluate_diversity texts ≤ 1 ∧
      (E.evaluate_diversity texts = 0 ↔ (combinedTokens texts).length < 2) := by
  simp only [RAGEvaluator.evaluate_diversity]
  cases htoks : combinedTokens texts with
  | nil => simp
  | cons t ts =>
    have hcard : (((t :: ts).zip ts).toFinset.card : ℚ) ≤ (ts.length : ℚ) := by
      have h1 : ((t :: ts).zip ts).toFinset.card ≤ ((t :: ts).zip ts).length :=
        List.toFinset_card_le _
      have h2 : ((t :: ts).zip ts).length = ts.length := by
        simp [List.length_zip]
      exact_mod_cast h2 ▸ h1
    have hlenpos : (0 : ℚ) < ((t :: ts).length : ℚ) := by
      exact_mod_cast Nat.succ_pos ts.length
    refine ⟨?_, ?_, ?_⟩
    · simp only [List.tail_cons, if_neg (List.cons_ne_nil t ts)]
      positivity
    · simp only [List.tail_cons, if_neg (List.cons_ne_nil t ts)]
      rw [div_le_one hlenpos]
      refine le_trans hcard ?_
      have : (ts.length : ℚ) ≤ ((t :: ts).length : ℚ) := by
        exact_mod_cast Nat.le_succ ts.length
      exact this
    · simp only [List.tail_cons, if_neg (List.cons_ne_nil t ts)]
      rw [div_eq_zero_iff]
      constructor
      · rintro (hc | hl)
        · have hc' : ((t :: ts).zip ts).toFinset.card = 0 := by exact_mod_cast hc
          rw [Finset.card_eq_zero, List.toFinset_eq_empty_iff] at hc'
          have hts : ts = [] := by
            cases ts with
            | nil => rfl
            | cons u us => simp [List.zip] at hc'
          simp [hts]
        · exact absurd hl (ne_of_gt hlenpos)
      · intro hlt
        left
        have hts : ts = [] := by
          cases ts with
          | nil => rfl
          | cons u us =>
            simp at hlt
            omega
        subst hts
        simp

/-- On singleton candidate/reference lists, `evaluate_bleu_rouge` always
returns normally: the ROUGE average is over exactly one pair. -/
theorem evaluate_bleu_rouge_singleton (E : RAGEvaluator) (c r : String) :
    E.evaluate_bleu_rouge [c] [r] = .ok (E.corpusBleu [c] [[r]], E.rouge1F r c) := by
  simp [RAGEvaluator.evaluate_bleu_rouge]

/-- On singleton candidate/reference lists, `evaluate_meteor` always returns
normally. -/
theorem evaluate_meteor_singleton (E : RAGEvaluator) (c r : String) :
    E.evaluate_meteor [c] [r] = .ok (E.meteorS [E.wordTok r] (E.wordTok c)) := by
  simp [RAGEvaluator.evaluate_meteor]

/-- On singleton candidate/reference lists, `evaluate_chrf` always returns
normally. -/
theorem evaluate_chrf_singleton (E : RAGEvaluator) (c r : String) :
    E.evaluate_chrf [c] [r] = .ok (E.chrfS r c) := by
  simp [RAGEvaluator.evaluate_chrf]

/-- When the perplexity and racial-bias calls return normally,
`evaluate_all` returns exactly this 18-entry report. -/
theorem evaluate_all_ok (E : RAGEvaluator) (q r ref : String) (p rb : ℚ)
    (hp : E.evaluate_perplexity r = .ok p)
    (hrb : E.evaluate_racial_bias r = .ok rb) :
    E.evaluate_all q r ref =
      .ok [("BLEU", .num (E.corpusBleu [r] [[ref]])),
           ("ROUGE-1", .num (E.rouge1F ref r)),
           ("BERT P", .num (meanQ (E.bertScores [r] [ref]).1)),
           ("BERT R", .num (meanQ (E.bertScores [r] [ref]).2.1)),
           ("BERT F1", .num (meanQ (E.bertScores [r] [ref]).2.2)),
           ("Perplexity", .num p),
           ("Diversity", .num (E.evaluate_diversity [r])),
           ("Racial Bias", .num rb),
           ("METEOR", .num (E.meteorS [E.wordTok ref] (E.wordTok r))),
           ("CHRF", .num (E.chrfS ref r)),
           ("Flesch Reading Ease", .num (E.fleschEase r)),
           ("Flesch-Kincaid Grade", .num (E.fleschGrade r)),
           ("Semantic Similarity", .num (E.evaluate_semantic_similarity r ref)),
           ("Factual Consistency",
             .boolean (E.evaluate_factual_consistency r ref factualConsistencyThreshold)),
           ("Question Relevance",
             .boolean (E.evaluate_question_relevance q r relevanceThreshold)),
           ("Context Relevance",
             .boolean (E.evaluate_question_relevance ref r relevanceThreshold)),
           ("Answer Relevance",
             .boolean (E.evaluate_question_relevance q r relevanceThreshold)),
           ("Toxicity", .num (E.evaluate_toxicity r))] := by
  simp [RAGEvaluator.evaluate_all, evaluate_bleu_rouge_singleton,
    evaluate_meteor_singleton, evaluate_chrf_singleton, hp, hrb,
    RAGEvaluator.evaluate_bert_score, RAGEvaluator.evaluate_readability]

/-- C1: whenever the metric sub-calls return normally, `evaluate_all`
returns a report whose keys are exactly the 18 documented names in order,
with boolean values exactly at Factual Consistency and the three relevance
keys, and floats everywhere else. -/
theorem evaluate_all_report_shape (E : RAGEvaluator) (q r ref : String)
    (p rb : ℚ)
    (hp : E.evaluate_perplexity r = .ok p)
    (hrb : E.evaluate_racial_bias r = .ok rb) :
    ∃ rep : Report, E.evaluate_all q r ref = .ok rep ∧
      rep.map Prod.fst = reportKeys ∧
      rep.map (fun kv => MetricValue.isBoolVal kv.2) = reportBoolMask :=
  ⟨_, evaluate_all_ok E q r ref p rb hp hrb, rfl, rfl⟩

/-- Witness for C1 at a concrete evaluator and concrete strings. -/
theorem evaluate_all_report_shape_witness :
    sampleEvaluator.evaluate_perplexity "r" = .ok 0 ∧
    sampleEvaluator.evaluate_racial_bias "r" = .ok 1 ∧
    ∃ rep : Report, sampleEvaluator.evaluate_all "q" "r" "ref" = .ok rep ∧
      rep.map Prod.fst = reportKeys ∧
      rep.map (fun kv => MetricValue.isBoolVal kv.2) = reportBoolMask := by
  have hp : sampleEvaluator.evaluate_perplexity "r" = .ok 0 := by
    simp [RAGEvaluator.evaluate_perplexity, sampleEvaluator, List.range']
  have hrb : sampleEvaluator.evaluate_racial_bias "r" = .ok 1 := rfl
  exact ⟨hp, hrb, evaluate_all_report_shape sampleEvaluator "q" "r" "ref" 0 1 hp hrb⟩

/-- C5: the three relevance methods agree at every input (each equal to the
thresholded semantic similarity), and in any report returned by
`evaluate_all` the Question, Context and Answer Relevance entries are all
produced by `evaluate_question_relevance`: Answer Relevance equals Question
Relevance, and Context Relevance is `evaluate_question_relevance` applied
to the reference and the response. -/
theorem relevance_methods_agree (E : RAGEvaluator) (x y : String) (t : ℚ)
    (q r ref : String) (rep : Report)
    (h : E.evaluate_all q r ref = .ok rep) :
    (E.evaluate_question_relevance x y t = E.evaluate_context_relevance x y t ∧
     E.evaluate_question_relevance x y t = E.evaluate_answer_relevance x y t ∧
     E.evaluate_question_relevance x y t =
       decide (E.evaluate_semantic_similarity x y ≥ t)) ∧
    (rep.lookup "Question Relevance" =
       some (.boolean (E.evaluate_question_relevance q r relevanceThreshold)) ∧
     rep.lookup "Answer Relevance" = rep.lookup "Question Relevance" ∧
     rep.lookup "Context Relevance" =
       some (.boolean (E.evaluate_question_relevance ref r relevanceThreshold))) := by
  refine ⟨⟨rfl, rfl, rfl⟩, ?_⟩
  simp only [RAGEvaluator.evaluate_all] at h
  split at h
  · exact Except.noConfusion h
  · split at h
    · exact Except.noConfusion h
    · split at h
      · exact Except.noConfusion h
      · split at h
        · exact Except.noConfusion h
        · split at h
          · exact Except.noConfusion h
          · injection h with h'
            subst h'
            exact ⟨rfl, rfl, rfl⟩

/-- Witness for C5 at a concrete evaluator, report and strings. -/
theorem relevance_methods_agree_witness :
    sampleEvaluator.evaluate_all "q" "r" "ref" = .ok sampleReport ∧
    ((sampleEvaluator.evaluate_question_relevance "x" "y" (1 / 2) =
        sampleEvaluator.evaluate_context_relevance "x" "y" (1 / 2) ∧
      sampleEvaluator.evaluate_question_relevance "x" "y" (1 / 2) =
        sampleEvaluator.evaluate_answer_relevance "x" "y" (1 / 2) ∧
      sampleEvaluator.evaluate_question_relevance "x" "y" (1 / 2) =
        decide (sampleEvaluator.evaluate_semantic_similarity "x" "y" ≥ 1 / 2)) ∧
     (sampleReport.lookup "Question Relevance" =
        some (.boolean (sampleEvaluator.evaluate_question_relevance "q" "r" relevanceThreshold)) ∧
      sampleReport.lookup "Answer Relevance" = sampleReport.lookup "Question Relevance" ∧
      sampleReport.lookup "Context Relevance" =
        some (.boolean (sampleEvaluator.evaluate_question_relevance "ref" "r" relevanceThreshold)))) := by
  have h : sampleEvaluator.evaluate_all "q" "r" "ref" = .ok sampleReport := by
    rw [evaluate_all_ok sampleEvaluator "q" "r" "ref" 0 1
      (by simp [RAGEvaluator.evaluate_perplexity, sampleEvaluator, List.range']) rfl]
    simp [sampleEvaluator, sampleReport, meanQ,
      RAGEvaluator.evaluate_diversity, combinedTokens, pySplit, pySplitAux,
      RAGEvaluator.evaluate_semantic_similarity, cosineSimQ, dotQ,
      RAGEvaluator.evaluate_factual_consistency, RAGEvaluator.evaluate_question_relevance,
      RAGEvaluator.evaluate_toxicity, strContains, hasSub, startsWith,
      factualConsistencyThreshold, relevanceThreshold]
    norm_num
  exact ⟨h, relevance_methods_agree sampleEvaluator "x" "y" (1 / 2) "q" "r" "ref"
    sampleReport h⟩

/-- C7: the `__init__` load trace acquires the GPT-2 model and tokenizer
twice each (the two identical `load_gpt2_model()` calls on lines 18 and 20)
and every other capability once, contradicting "each capability is loaded
exactly once". -/
theorem initLoadEvents_gpt2_loaded_twice :
    initLoadEvents.count Capability.gpt2Model = 2 ∧
    initLoadEvents.count Capability.gpt2Tokenizer = 2 ∧
    initLoadEvents.count Capability.biasClassifier = 1 ∧
    initLoadEvents.count Capability.sentenceEncoder = 1 ∧
    initLoadEvents.count Capability.toxicityClassifier = 1 := by
  decide

/-- C8: whenever the tokenizer yields exactly one token,
`evaluate_perplexity` returns normally: the window loop runs exactly once,
the target masking masks nothing, and the final division is by
`end_loc = 1`. -/
theorem evaluate_perplexity_single_token_ok (E : RAGEvaluator) (text : String)
    (h : (E.gpt2Tokenize text).length = 1) :
    ∃ v : ℚ, E.evaluate_perplexity text = .ok v := by
  obtain ⟨a, ha⟩ : ∃ a, E.gpt2Tokenize text = [a] := by
    cases hl : E.gpt2Tokenize text with
    | nil => rw [hl] at h; simp at h
    | cons x xs =>
      rw [hl] at h
      simp at h
      exact ⟨x, by rw [h]⟩
  simp [RAGEvaluator.evaluate_perplexity, ha, List.range']

/-- Witness for C8 at a concrete evaluator whose tokenizer returns one
token. -/
theorem evaluate_perplexity_single_token_ok_witness :
    (sampleEvaluator.gpt2Tokenize "r").length = 1 ∧
    ∃ v : ℚ, sampleEvaluator.evaluate_perplexity "r" = .ok v :=
  ⟨rfl, evaluate_perplexity_single_token_ok sampleEvaluator "r" rfl⟩

/-- C9: if any of the fallible metric calls made inside `evaluate_all`
raises at its `evaluate_all` argument, then `evaluate_all` itself raises
and returns no report at all: there is no partial report and no isolation
between metrics. -/
theorem evaluate_all_no_metric_isolation (E : RAGEvaluator) (q r ref : String)
    (h : isOkE (E.evaluate_bleu_rouge [r] [ref]) = false ∨
         isOkE (E.evaluate_perplexity r) = false ∨
         isOkE (E.evaluate_racial_bias r) = false ∨
         isOkE (E.evaluate_meteor [r] [ref]) = false ∨
         isOkE (E.evaluate_chrf [r] [ref]) = false) :
    isOkE (E.evaluate_all q r ref) = false ∧
    ∀ rep : Report, E.evaluate_all q r ref ≠ .ok rep := by
  have main : isOkE (E.evaluate_all q r ref) = false := by
    rcases hbr : E.evaluate_bleu_rouge [r] [ref] with e | v
    · simp [RAGEvaluator.evaluate_all, hbr, isOkE]
    · obtain ⟨bleu, rouge1⟩ := v
      rcases hp : E.evaluate_perplexity r with e | p
      · simp [RAGEvaluator.evaluate_all, hbr, hp, isOkE]
      · rcases hrb : E.evaluate_racial_bias r with e | rb
        · simp [RAGEvaluator.evaluate_all, hbr, hp, hrb, isOkE]
        · rcases hm : E.evaluate_meteor [r] [ref] with e | m
          · simp [RAGEvaluator.evaluate_all, hbr, hp, hrb, hm, isOkE]
          · rcases hc : E.evaluate_chrf [r] [ref] with e | c
            · simp [RAGEvaluator.evaluate_all, hbr, hp, hrb, hm, hc, isOkE]
            · rcases h with h | h | h | h | h <;>
                simp [hbr, hp, hrb, hm, hc, isOkE] at h
  refine ⟨main, fun rep hrep => ?_⟩
  rw [hrep] at main
  simp [isOkE] at main

/-- Witness for C9 at a concrete evaluator whose tokenizer yields no
tokens, making the perplexity metric raise. -/
theorem evaluate_all_no_metric_isolation_witness :
    (isOkE (emptyTokenEvaluator.evaluate_bleu_rouge ["r"] ["ref"]) = false ∨
     isOkE (emptyTokenEvaluator.evaluate_perplexity "r") = false ∨
     isOkE (emptyTokenEvaluator.evaluate_racial_bias "r") = false ∨
     isOkE (emptyTokenEvaluator.evaluate_meteor ["r"] ["ref"]) = false ∨
     isOkE (emptyTokenEvaluator.evaluate_chrf ["r"] ["ref"]) = false) ∧
    (isOkE (emptyTokenEvaluator.evaluate_all "q" "r" "ref") = false ∧
     ∀ rep : Report, emptyTokenEvaluator.evaluate_all "q" "r" "ref" ≠ .ok rep) := by
  have hd : isOkE (emptyTokenEvaluator.evaluate_perplexity "r") = false := by
    simp [RAGEvaluator.evaluate_perplexity, emptyTokenEvaluator, isOkE, List.range']
  exact ⟨Or.inr (Or.inl hd),
    evaluate_all_no_metric_isolation emptyTokenEvaluator "q" "r" "ref"
      (Or.inr (Or.inl hd))⟩

/-- C10: with equal-length candidate/reference lists, the averaging
divisors of `evaluate_bleu_rouge`, `evaluate_meteor` and `evaluate_chrf`
are positive exactly when the lists are non-empty: on non-empty input all
three return normally, and on empty input all three raise a
division-by-zero instead of returning a default. -/
theorem averaging_divisor_spec (E : RAGEvaluator)
    (candidates references : List String)
    (hlen : candidates.length = references.length) :
    (candidates ≠ [] →
      isOkE (E.evaluate_bleu_rouge candidates references) = true ∧
      isOkE (E.evaluate_meteor candidates references) = true ∧
      isOkE (E.evaluate_chrf candidates references) = true) ∧
    (candidates = [] →
      E.evaluate_bleu_rouge candidates references =
        .error "ZeroDivisionError: division by zero" ∧
      E.evaluate_meteor candidates references =
        .error "ZeroDivisionError: division by zero" ∧
      E.evaluate_chrf candidates references =
        .error "ZeroDivisionError: division by zero") := by
  constructor
  · intro hne
    have hzip : (references.zip candidates).length = candidates.length := by
      simp [List.length_zip, hlen.symm]
    have hpos : ¬ (references.zip candidates).length = 0 := by
      rw [hzip]
      simpa using hne
    have hrefs : references ≠ [] := by
      intro hr
      rw [hr] at hlen
      simp at hlen
      exact hne hlen
    refine ⟨?_, ?_, ?_⟩ <;>
      simp [RAGEvaluator.evaluate_bleu_rouge, RAGEvaluator.evaluate_meteor,
        RAGEvaluator.evaluate_chrf, List.length_map, hpos, hne, hrefs, isOkE]
  · intro hempty
    subst hempty
    refine ⟨?_, ?_, ?_⟩ <;>
      simp [RAGEvaluator.evaluate_bleu_rouge, RAGEvaluator.evaluate_meteor,
        RAGEvaluator.evaluate_chrf, List.zip_nil_right]

/-- Witness for C10 at a concrete evaluator and singleton lists. -/
theorem averaging_divisor_spec_witness :
    (["a"] : List String).length = (["b"] : List String).length ∧
    (((["a"] : List String) ≠ [] →
      isOkE (sampleEvaluator.evaluate_bleu_rouge ["a"] ["b"]) = true ∧
      isOkE (sampleEvaluator.evaluate_meteor ["a"] ["b"]) = true ∧
      isOkE (sampleEvaluator.evaluate_chrf ["a"] ["b"]) = true) ∧
     ((["a"] : List String) = [] →
      sampleEvaluator.evaluate_bleu_rouge ["a"] ["b"] =
        .error "ZeroDivisionError: division by zero" ∧
      sampleEvaluator.evaluate_meteor ["a"] ["b"] =
        .error "ZeroDivisionError: division by zero" ∧
      sampleEvaluator.evaluate_chrf ["a"] ["b"] =
        .error "ZeroDivisionError: division by zero")) :=
  ⟨rfl, averaging_divisor_spec sampleEvaluator ["a"] ["b"] rfl⟩

end RagEval
